import Mathlib

/-!
# Verification of the kikoda-constructs bundling engine and single-page-app construct

This file embeds the repository's bundling decision engine (the
`typescript-function` Bundling class) and the `SinglePageApp` construct
into Lean, and proves the spec's claims about them.

The bundling implementation file itself is not part of the provided
sources (only its test suite is), so the engine is modelled from the
specification (§3, §4.1, §7, §8 of spec.md), with the exact error
messages and observable behaviour pinned by the repository's test suite.
The `SinglePageApp` model is translated directly from
`src/single-page-app.ts`.
-/

namespace KikodaConstructs

/-! ## Generic string and path helpers (JS `Array.join`, node `path`) -/

/-- JavaScript `Array.prototype.join(sep)` on a list of strings. -/
def joinSep (sep : String) : List String → String
  | [] => ""
  | [x] => x
  | x :: xs => x ++ sep ++ joinSep sep xs

/-- Join a list of character lists with a separator character list. -/
def joinSepList (sep : List Char) : List (List Char) → List Char
  | [] => []
  | [x] => x
  | x :: xs => x ++ sep ++ joinSepList sep xs

/-- Split a character list on a separator character
(JavaScript `String.prototype.split`). -/
def splitOnChar (c : Char) : List Char → List (List Char)
  | [] => [[]]
  | x :: xs =>
    if x = c then [] :: splitOnChar c xs
    else
      match splitOnChar c xs with
      | [] => [[x]]
      | y :: ys => (x :: y) :: ys

/-- node `path.basename`: the part of the path after the last slash. -/
def pathBasename (p : String) : String :=
  String.mk ((p.data.reverse.takeWhile (fun ch => ch != '/')).reverse)

/-- node `path.dirname`: the part of the path before the last slash,
`"."` when the path has no slash. -/
def pathDirname (p : String) : String :=
  if p.data.contains '/' then
    String.mk (((p.data.reverse.dropWhile (fun ch => ch != '/')).drop 1).reverse)
  else "."

/-- node `path.relative(root, p)` restricted to the case used by the
engine: strip a leading `root ++ "/"` prefix from `p`. -/
def relativePath (root p : String) : String :=
  if (root ++ "/").data.isPrefixOf p.data then
    String.mk (p.data.drop (root.data.length + 1))
  else p

/-! ## Data model of the bundling decision engine -/

/-- Modelled from the spec: the sourcemap-mode flag of `BundlingOptions`
(the `SourceMapMode` enum of the bundler options). -/
inductive SourceMapMode where
  | default
  | external
  | inline
  | both
deriving DecidableEq, Repr

/-- The command-line value of a source map mode. -/
def SourceMapMode.cliValue : SourceMapMode → String
  | .default => "default"
  | .external => "external"
  | .inline => "inline"
  | .both => "both"

/-- Modelled from the spec: the optional output format of
`BundlingOptions` (CommonJS or ECMAScript modules). -/
inductive OutputFormat where
  | cjs
  | esm
deriving DecidableEq, Repr

/-- The command-line value of an output format. -/
def OutputFormat.cliValue : OutputFormat → String
  | .cjs => "cjs"
  | .esm => "esm"

/-- Modelled from the spec: a target runtime identifier, together with
whether the runtime supports ECMAScript module output ("ESM output
format is invalid for runtimes lacking ESM support", spec §3). -/
structure Runtime where
  name : String
  supportsEsm : Bool
deriving DecidableEq, Repr

/-- The `nodejs12.x` runtime, which predates ESM support. -/
def Runtime.nodejs12x : Runtime := ⟨"nodejs12.x", false⟩

/-- The `nodejs14.x` runtime, which supports ESM output. -/
def Runtime.nodejs14x : Runtime := ⟨"nodejs14.x", true⟩

/-- Modelled from the spec: the `PackageManager` variant — "an enumerated
variant determined by which lock-file name is present at the
dependency-lock path. Each variant maps to a fixed install-command
template and a fixed run-a-local-binary command template" (spec §3). -/
structure PackageManager where
  lockFile : String
  installCommand : List String
  runBinCommand : List String
deriving DecidableEq, Repr

/-- The npm package manager (lock file `package-lock.json`). -/
def PackageManager.npm : PackageManager :=
  ⟨"package-lock.json", ["npm", "ci"], ["npx", "--no-install"]⟩

/-- The yarn package manager (lock file `yarn.lock`); its install
template is `yarn install --no-immutable` as required by the test
`Detects yarn.lock`. -/
def PackageManager.yarn : PackageManager :=
  ⟨"yarn.lock", ["yarn", "install", "--no-immutable"], ["yarn", "run"]⟩

/-- The pnpm package manager (lock file `pnpm-lock.yaml`); its install
template contains `pnpm install` as required by the test
`Detects pnpm-lock.yaml`. -/
def PackageManager.pnpm : PackageManager :=
  ⟨"pnpm-lock.yaml", ["pnpm", "install"], ["pnpm", "exec"]⟩

/-- Modelled from the spec: "Inspect the dependency-lock file name to
select the PackageManager variant (exact filename match against a fixed
table; first match wins; default if none match)" (spec §4.1 step 1).
The default variant is npm. -/
def PackageManager.fromLockFile (lockFilePath : String) : PackageManager :=
  let lockFile := pathBasename lockFilePath
  if lockFile == PackageManager.pnpm.lockFile then PackageManager.pnpm
  else if lockFile == PackageManager.yarn.lockFile then PackageManager.yarn
  else PackageManager.npm

/-- Modelled from the spec: `DetectedInstallation` — "result of probing
whether a required tool is available locally, and at what version"
(spec §3). Named after the `PackageInstallation` collaborator used by
the test suite. -/
structure PackageInstallation where
  isLocal : Bool
  version : String
deriving DecidableEq, Repr

/-- Modelled from the spec: the command hooks of `BundlingOptions` —
"a fixed-order list of pure functions `(inputDir, outputDir) ->
sequence of command strings`" (spec §9). -/
structure CommandHooks where
  beforeInstall : String → String → List String
  beforeBundling : String → String → List String
  afterBundling : String → String → List String

/-- Modelled from the spec: `BundlingOptions` (spec §3) — the immutable
configuration record of a build request. -/
structure BundlingProps where
  entry : String
  projectRoot : String
  depsLockFilePath : String
  runtime : Runtime
  architecture : String := "x86_64"
  externalModules : List String := []
  nodeModules : Option (List String) := none
  minify : Bool := false
  sourceMap : Option Bool := none
  sourceMapMode : Option SourceMapMode := none
  format : Option OutputFormat := none
  preCompilation : Bool := false
  tsconfig : Option String := none
  environment : List (String × String) := []
  commandHooks : Option CommandHooks := none
  forceDockerBundling : Bool := false
  assetHash : Option String := none
  yarnPnP : Bool := false
  buildArgs : List (String × String) := []
  dockerImage : Option String := none

/-- Modelled from the spec: the error taxonomy of the engine (spec §7):
configuration errors detected before any execution, and tool-version
mismatches surfaced only when local execution is attempted. -/
inductive BundlingError where
  | configuration (message : String)
  | toolVersionMismatch (message : String)
  | buildExecution (message : String)
deriving DecidableEq, Repr

/-- The message text of a bundling error. -/
def BundlingError.message : BundlingError → String
  | .configuration m => m
  | .toolVersionMismatch m => m
  | .buildExecution m => m

/-! ## Validation predicates

Each predicate is exactly the condition of one of the engine's
configuration checks (spec §4.1 contract, in the order listed there:
sourcemap-mode, ESM runtime, PnP flag, pre-compilation tsconfig). -/

/-- The sourcemap conflict check: `sourceMapMode` is set while
`sourceMap` is explicitly `false`. The test suite pins down that an
omitted `sourceMap` together with a `sourceMapMode` is accepted (test
`esbuild bundling source map enabled when only source map mode exists`),
so only the explicit `false` is rejected. -/
def sourceMapGuilty (props : BundlingProps) : Bool :=
  props.sourceMap == some false && props.sourceMapMode.isSome

/-- The ESM check: output format is ESM while the target runtime
predates ESM support. -/
def esmGuilty (props : BundlingProps) : Bool :=
  props.format == some OutputFormat.esm && !props.runtime.supportsEsm

/-- The yarn PnP check: the PnP flag is set while the package manager
detected from the lock-file name is not yarn. -/
def yarnPnPGuilty (props : BundlingProps) : Bool :=
  props.yarnPnP && !(PackageManager.fromLockFile props.depsLockFilePath == PackageManager.yarn)

/-- Convention-based tsconfig discovery: an explicit `tsconfig` path
wins; otherwise walk up from the entry file's directory looking for a
`tsconfig.json` in the file system `fs` (modelled as the list of
existing file paths). -/
def findUp (fs : List String) (fileName : String) (dir : String) : Option String :=
  let parts := splitOnChar '/' dir.data
  ((List.range parts.length).reverse.filterMap (fun n =>
    let candidate := String.mk (joinSepList ['/'] (parts.take (n + 1))) ++ "/" ++ fileName
    if fs.contains candidate then some candidate else none)).head?

/-- The tsconfig used for pre-compilation: the explicit `tsconfig`
option if given, otherwise the conventional discovery. -/
def resolvedTsconfig (fs : List String) (props : BundlingProps) : Option String :=
  match props.tsconfig with
  | some t => some t
  | none => findUp fs "tsconfig.json" (pathDirname props.entry)

/-- The pre-compilation check: pre-compilation is requested but no
tsconfig can be found. -/
def tsconfigGuilty (fs : List String) (props : BundlingProps) : Bool :=
  props.preCompilation && (resolvedTsconfig fs props).isNone

/-! ## Command assembly -/

/-- Modelled from the spec: success-gated chaining — command fragments
are "joined with a logical AND so any failing fragment aborts the
remaining chain", and an empty fragment contributes nothing
(spec §4.1 step 4, §8). -/
def chain (commands : List String) : String :=
  joinSep " && " (commands.filter (fun c => c != ""))

/-- Whether source maps are enabled: either an explicit `sourceMap:
true`, or a `sourceMapMode` on its own (which enables them). -/
def sourceMapEnabled (props : BundlingProps) : Bool :=
  props.sourceMapMode.isSome || props.sourceMap.getD false

/-- The suffix of the `--sourcemap` flag: empty for the default mode,
`=mode` otherwise. -/
def sourceMapSuffix (props : BundlingProps) : String :=
  match props.sourceMapMode with
  | none => ""
  | some .default => ""
  | some m => "=" ++ m.cliValue

/-- Modelled from the spec: the core bundler invocation with all
resolved flags (spec §4.1 step 5). -/
def esbuildCommand (props : BundlingProps) (relativeEntryPath outputDir : String) : String :=
  joinSep " " (
    ["esbuild", "--bundle", "\"" ++ relativeEntryPath ++ "\"",
     "--target=" ++ props.runtime.name, "--platform=node",
     "--outfile=\"" ++ outputDir ++ "/index.js\""]
    ++ (match props.format with
        | some f => ["--format=" ++ f.cliValue]
        | none => [])
    ++ (if props.minify then ["--minify"] else [])
    ++ (if sourceMapEnabled props then ["--sourcemap" ++ sourceMapSuffix props] else [])
    ++ props.externalModules.map (fun m => "--external:" ++ m))

/-- Modelled from the spec: the dependency-installation step, present
only when extra modules are named — copy the lock file next to the
output, change into the output directory and run the package manager's
install template (spec §4.1 step 5). -/
def depsCommand (props : BundlingProps) (packageManager : PackageManager)
    (inputDir outputDir : String) : String :=
  match props.nodeModules with
  | none => ""
  | some _mods =>
    chain [
      "cp \"" ++ inputDir ++ "/" ++ relativePath props.projectRoot props.depsLockFilePath
        ++ "\" \"" ++ outputDir ++ "/" ++ packageManager.lockFile ++ "\"",
      "cd " ++ outputDir,
      joinSep " " packageManager.installCommand]

/-- Modelled from the spec: the pre-compilation (type-check/transpile)
step, "prefixed to the assembled pipeline" when requested
(spec §4.1 step 3). Empty when pre-compilation is not requested. -/
def tscCommand (fs : List String) (props : BundlingProps) (relativeEntryPath : String) : String :=
  if props.preCompilation then
    match resolvedTsconfig fs props with
    | some t => "tsc \"" ++ relativeEntryPath ++ "\" --project \"" ++ t ++ "\""
    | none => ""
  else ""

/-- Modelled from the spec: assembly of the final shell command —
hook fragments and build steps concatenated "in the fixed order
pre-install, pre-bundle, core-bundle, post-bundle" and success-gated
(spec §4.1 steps 4-5, §8), each hook invoked with the input/output
directory placeholders. -/
def assembleCommand (fs : List String) (props : BundlingProps)
    (packageManager : PackageManager) (inputDir outputDir : String) : String :=
  let relativeEntryPath := inputDir ++ "/" ++ relativePath props.projectRoot props.entry
  let beforeInstallFrags := match props.commandHooks with
    | some h => h.beforeInstall inputDir outputDir
    | none => []
  let beforeBundlingFrags := match props.commandHooks with
    | some h => h.beforeBundling inputDir outputDir
    | none => []
  let afterBundlingFrags := match props.commandHooks with
    | some h => h.afterBundling inputDir outputDir
    | none => []
  chain (beforeInstallFrags
    ++ [depsCommand props packageManager inputDir outputDir]
    ++ beforeBundlingFrags
    ++ [tscCommand fs props relativeEntryPath,
        esbuildCommand props relativeEntryPath outputDir]
    ++ afterBundlingFrags)

/-! ## The engine -/

/-- The constructed bundling engine: the validated options, the detected
package manager, the injected local-tool probe result (the spec's
per-process probe cache modelled as an explicit injectable value,
spec §9), and the assembled container command. -/
structure Bundling where
  props : BundlingProps
  packageManager : PackageManager
  esbuildInstallation : Option PackageInstallation
  command : List String

/-- Modelled from the spec: construction of the bundling engine.  All
configuration errors are raised synchronously here, before any
execution attempt (spec §4.1 contract and failure semantics), in the
order the contract lists them: sourcemap-mode conflict, ESM/runtime
conflict, PnP flag conflict, missing tsconfig.  The local-tool probe
result is accepted unchecked: a version mismatch is not an error at
construction time. -/
def Bundling.create (fs : List String) (esbuildInstallation : Option PackageInstallation)
    (props : BundlingProps) : Except BundlingError Bundling :=
  let packageManager := PackageManager.fromLockFile props.depsLockFilePath
  if sourceMapGuilty props then
    .error (.configuration "sourceMapMode cannot be used when sourceMap is false")
  else if esmGuilty props then
    .error (.configuration ("ECMAScript module output format is not supported by the "
      ++ props.runtime.name ++ " runtime"))
  else if yarnPnPGuilty props then
    .error (.configuration "yarnPnP is only supported when using the yarn package manager")
  else if tsconfigGuilty fs props then
    .error (.configuration "Cannot find a `tsconfig.json` but `preCompilation` is set to `true`, please specify it via `tsconfig`")
  else
    .ok ⟨props, packageManager, esbuildInstallation,
      ["bash", "-c", assembleCommand fs props packageManager "/asset-input" "/asset-output"]⟩

/-- The expected major version of the bundler tool. -/
def esbuildMajorVersion : String := "0"

/-- Modelled from the spec: local execution attempt.  Returns `false`
(falling back to container execution) when no local installation was
detected; raises the tool-version-mismatch error — only here, at the
point local execution is attempted — when the detected version's major
version does not match the expected one (spec §4.1 step 2, §7). -/
def Bundling.tryBundle (b : Bundling) (_outputDir : String) : Except BundlingError Bool :=
  match b.esbuildInstallation with
  | none => .ok false
  | some inst =>
    if (esbuildMajorVersion ++ ".").data.isPrefixOf inst.version.data then
      .ok true
    else
      .error (.toolVersionMismatch ("Expected esbuild version " ++ esbuildMajorVersion
        ++ ".x but got " ++ inst.version))

/-- The hashing strategy of the build-artifact request. -/
inductive AssetHashType where
  | output
  | custom
deriving DecidableEq, Repr

/-- Modelled from the spec: the request handed to the build-artifact
collaborator (`Code.fromAsset`): the source directory, the hashing
strategy, the assembled command and the environment mapping
(spec §6, §4.1 step 7). -/
structure BuildArtifactRequest where
  directory : String
  assetHashType : AssetHashType
  assetHash : Option String
  command : List String
  environment : List (String × String)
  workingDirectory : String

/-- Modelled from the spec: `Bundling.bundle` — construct the engine
and hand the parent directory of the lock file to the build-artifact
collaborator, tagged with the custom hash string when supplied
(strategy CUSTOM) and with a content hash of the output otherwise
(spec §4.1 step 7). -/
def Bundling.bundle (fs : List String) (esbuildInstallation : Option PackageInstallation)
    (props : BundlingProps) : Except BundlingError BuildArtifactRequest :=
  match Bundling.create fs esbuildInstallation props with
  | .error e => .error e
  | .ok b =>
    .ok { directory := pathDirname props.depsLockFilePath
          assetHashType := if props.assetHash.isSome then AssetHashType.custom else AssetHashType.output
          assetHash := props.assetHash
          command := b.command
          environment := props.environment
          workingDirectory := "/" }

/-! ## Observation helpers on request results -/

/-- The directory of a successful build-artifact request. -/
def requestDirectory : Except BundlingError BuildArtifactRequest → Option String
  | .ok r => some r.directory
  | .error _ => none

/-- The full command array of a successful build-artifact request. -/
def requestCommand : Except BundlingError BuildArtifactRequest → Option (List String)
  | .ok r => some r.command
  | .error _ => none

/-- The shell text of the command of a build-artifact request (the last
element of the `bash -c` command array); empty on an error. -/
def requestCommandText : Except BundlingError BuildArtifactRequest → String
  | .ok r => r.command.getLastD ""
  | .error _ => ""

/-- The hash fields of a successful build-artifact request. -/
def requestHash : Except BundlingError BuildArtifactRequest → Option (AssetHashType × Option String)
  | .ok r => some (r.assetHashType, r.assetHash)
  | .error _ => none

/-! ## The SinglePageApp construct (from `src/single-page-app.ts`) -/

/-- The props of the `SinglePageApp` construct
(`SinglePageAppProps`, src/single-page-app.ts lines 23-75).  An
existing hosted zone reference is modelled by its zone id. -/
structure SinglePageAppProps where
  hostedZone : Option String := none
  zoneName : Option String := none
  subdomain : Option String := none
  acmCertificateArn : Option String := none
  indexDoc : String
  errorDoc : Option String := none
  repoRoot : Option String := none
  appDir : String := ""
  buildDir : Option String := none
  buildCommand : Option String := none

/-- How the construct obtained its hosted zone: the provided one, one
found by `HostedZone.fromLookup`, or a newly created `HostedZone`
(src/single-page-app.ts lines 91-107). -/
inductive ZoneSource where
  | provided (zoneId : String)
  | lookedUp (domainName : String)
  | created (zoneName : String)
deriving DecidableEq, Repr

/-- How the construct obtained its certificate: imported by ARN via
`Certificate.fromCertificateArn`, or newly created as a
`DnsValidatedCertificate` (src/single-page-app.ts lines 112-132). -/
inductive CertificateSource where
  | imported (arn : String)
  | dnsValidated (domainName : String)
deriving DecidableEq, Repr

/-- The region component of an ARN
(`Stack.splitArn(arn, ArnFormat.SLASH_RESOURCE_NAME).region`): an ARN
reads `arn:partition:service:region:account:resource`, so the region is
the fourth colon-separated component. -/
def arnRegion (arn : String) : String :=
  String.mk ((splitOnChar ':' arn.data).getD 3 [])

/-- The resources the `SinglePageApp` constructor creates when it
succeeds (bucket, distribution, deployment, alias record). -/
structure SinglePageAppResult where
  hostedZone : ZoneSource
  domainName : Option String
  certificate : CertificateSource
  websiteBucketCreated : Bool
  distributionDomainNames : List (Option String)
  errorResponsePagePath : String
  aliasRecordName : Option String
deriving DecidableEq, Repr

/-- The `SinglePageApp` constructor (src/single-page-app.ts lines
88-229), as a function from props to either the thrown error message or
the created resources.  `lookupSucceeds` stands for whether
`HostedZone.fromLookup` succeeds (the construct falls back to creating
a zone when it throws), and `isUnresolved` for `Token.isUnresolved`. -/
def SinglePageApp.create (lookupSucceeds : Bool) (isUnresolved : String → Bool)
    (props : SinglePageAppProps) : Except String SinglePageAppResult :=
  let hostedZoneResult : Except String ZoneSource :=
    match props.hostedZone with
    | some z => .ok (.provided z)
    | none =>
      match props.zoneName with
      | some zn => .ok (if lookupSucceeds then .lookedUp zn else .created zn)
      | none => .error "Either `hostedZone` or `zoneName` must be provided."
  match hostedZoneResult with
  | .error e => .error e
  | .ok zone =>
    let domainName : Option String :=
      match props.subdomain with
      | some sub => some (sub ++ "." ++ props.zoneName.getD "undefined")
      | none => props.zoneName
    let certResult : Except String CertificateSource :=
      match props.acmCertificateArn with
      | some arn =>
        let certificateRegion := arnRegion arn
        if isUnresolved certificateRegion = false ∧ certificateRegion ≠ "us-east-1" then
          .error ("The certificate must be in the us-east-1 region and the certificate you provided is in "
            ++ certificateRegion ++ ".")
        else .ok (.imported arn)
      | none => .ok (.dnsValidated (domainName.getD "undefined"))
    match certResult with
    | .error e => .error e
    | .ok certificate =>
      .ok { hostedZone := zone
            domainName := domainName
            certificate := certificate
            websiteBucketCreated := true
            distributionDomainNames := [domainName]
            errorResponsePagePath := "/" ++ (props.errorDoc.getD props.indexDoc)
            aliasRecordName := domainName }

/-- The certificate of a successful construction. -/
def spaCertificate : Except String SinglePageAppResult → Option CertificateSource
  | .ok r => some r.certificate
  | .error _ => none

/-! ## Concrete inputs, taken from the repository's test suite -/

/-- The base bundling options used throughout the test suite: entry
`/project/lib/handler.ts`, project root `/project`, lock file
`/project/yarn.lock`, runtime `nodejs14.x`. -/
def testProps : BundlingProps :=
  { entry := "/project/lib/handler.ts"
    projectRoot := "/project"
    depsLockFilePath := "/project/yarn.lock"
    runtime := Runtime.nodejs14x }

/-- Options with only a source map mode and no `sourceMap` flag (test
`esbuild bundling source map enabled when only source map mode exists`). -/
def c1CexProps : BundlingProps := { testProps with sourceMapMode := some .inline }

/-- Options with `sourceMap: false` and a source map mode (test
`esbuild bundling throws when sourceMapMode used with false sourceMap`). -/
def c1AmendedProps : BundlingProps :=
  { testProps with sourceMap := some false, sourceMapMode := some .inline }

/-- Options with a yarn lock file and a named extra module (test
`Detects yarn.lock`). -/
def c2YarnProps : BundlingProps := { testProps with nodeModules := some ["delay"] }

/-- Options with a pnpm lock file and a named extra module (test
`Detects pnpm-lock.yaml`). -/
def c2PnpmProps : BundlingProps :=
  { testProps with depsLockFilePath := "/project/pnpm-lock.yaml", nodeModules := some ["delay"] }

/-- A local bundler-tool detection with a wrong major version (test
`Incorrect esbuild version`). -/
def c3Inst : PackageInstallation := ⟨true, "3.4.5"⟩

/-- Options requesting pre-compilation with no tsconfig anywhere (test
`throws with pre compilation and not found tsconfig`). -/
def c4Props : BundlingProps := { testProps with preCompilation := true }

/-- Options requesting ESM output on `nodejs12.x` (test
`throws with ESM and NODEJS_12_X`). -/
def c5Props : BundlingProps :=
  { testProps with runtime := Runtime.nodejs12x, format := some OutputFormat.esm }

/-- Options with the PnP flag and an npm lock file (test
`throws with yarnPnP and npm`). -/
def c6Props : BundlingProps :=
  { testProps with depsLockFilePath := "/project/package-lock.json", yarnPnP := true }

/-- The command hooks of the test `with command hooks`: an empty
pre-install hook, two pre-bundle fragments and one post-bundle
fragment. -/
def c7Hooks : CommandHooks :=
  ⟨fun _ _ => [],
   fun i o => ["echo hello > " ++ i ++ "/a.txt", "cp " ++ i ++ "/a.txt " ++ o],
   fun i o => ["cp " ++ i ++ "/b.txt " ++ o ++ "/txt"]⟩

/-- Options with the command hooks of the test `with command hooks`. -/
def c7Props : BundlingProps := { testProps with commandHooks := some c7Hooks }

/-- Options with a custom asset hash (test `with custom hash`). -/
def c8Props : BundlingProps := { testProps with assetHash := some "custom" }

/-- Single-page-app props with neither a hosted zone nor a zone name. -/
def c9Props : SinglePageAppProps := { indexDoc := "index.html" }

/-- Single-page-app props importing a certificate that lives in
`us-west-2`. -/
def c10Props : SinglePageAppProps :=
  { indexDoc := "index.html"
    zoneName := some "example.com"
    acmCertificateArn := some "arn:aws:acm:us-west-2:123:certificate/abc" }

/-! ## Helper lemmas on joined command strings -/

/-- An element of a joined list is an infix of the joined string. -/
theorem joinSep_infix_of_mem (sep : String) {x : String} {l : List String} (hx : x ∈ l) :
    x.data <:+: (joinSep sep l).data := by
  induction l with
  | nil => cases hx
  | cons y ys ih =>
    cases ys with
    | nil =>
      rw [List.mem_singleton] at hx
      subst hx
      exact List.infix_rfl
    | cons z zs =>
      rcases List.mem_cons.mp hx with h | h
      · subst h
        have he : joinSep sep (x :: z :: zs) = x ++ sep ++ joinSep sep (z :: zs) := rfl
        rw [he, String.data_append, String.data_append, List.append_assoc]
        exact (List.prefix_append x.data _).isInfix
      · have h1 := ih h
        have he : joinSep sep (y :: z :: zs) = y ++ sep ++ joinSep sep (z :: zs) := rfl
        rw [he, String.data_append]
        exact h1.trans (List.suffix_append _ _).isInfix

/-- A nonempty element of a chained command list is an infix of the
chained command string. -/
theorem chain_infix_of_mem {x : String} {l : List String} (hx : x ∈ l) (hne : x ≠ "") :
    x.data <:+: (chain l).data := by
  apply joinSep_infix_of_mem
  refine List.mem_filter.mpr ⟨hx, ?_⟩
  simpa using hne

/-- A string with a nonempty infix is nonempty. -/
theorem ne_empty_of_infix_data {x y : String} (h : x.data <:+: y.data) (hx : x ≠ "") :
    y ≠ "" := by
  intro hy
  subst hy
  have hnil : x.data = [] := List.eq_nil_of_infix_nil h
  exact hx (String.ext hnil)

/-! ## Claim C1 -/

/-- Claim C1, counterexample: the claim states that `Bundling.bundle`
with `sourceMapMode` set throws even when `sourceMap` is omitted; but on
options with `sourceMapMode` set and `sourceMap` omitted (the input of
the test `esbuild bundling source map enabled when only source map mode
exists`) bundling succeeds, so the claim as stated is false. -/
theorem c1_counterexample : (Bundling.bundle [] none c1CexProps).isOk = true := by decide

/-- Claim C1 (amended): for every `BundlingOptions`, calling
`Bundling.bundle` with `sourceMapMode` set while `sourceMap` is
explicitly `false` always throws a `ConfigurationError` with the
message `sourceMapMode cannot be used when sourceMap is false`,
regardless of all other options. -/
theorem c1_sourcemap_conflict (fs : List String) (inst : Option PackageInstallation)
    (props : BundlingProps) (h1 : props.sourceMap = some false)
    (h2 : props.sourceMapMode.isSome = true) :
    Bundling.bundle fs inst props =
      .error (.configuration "sourceMapMode cannot be used when sourceMap is false") := by
  have hg : sourceMapGuilty props = true := by simp [sourceMapGuilty, h1, h2]
  simp [Bundling.bundle, Bundling.create, hg]

/-- Claim C1, witness: the amended claim at the input of the test
`esbuild bundling throws when sourceMapMode used with false sourceMap`. -/
theorem c1_witness :
    c1AmendedProps.sourceMap = some false ∧ c1AmendedProps.sourceMapMode.isSome = true ∧
    Bundling.bundle [] none c1AmendedProps =
      .error (.configuration "sourceMapMode cannot be used when sourceMap is false") :=
  ⟨rfl, rfl, c1_sourcemap_conflict [] none c1AmendedProps rfl rfl⟩

/-! ## Claim C4 -/

/-- Claim C4: for every `BundlingOptions` with `preCompilation` set to
`true`, no explicit tsconfig path, and no `tsconfig.json` discoverable
at the conventional location, `Bundling.bundle` fails synchronously
(no artifact request is produced) with exactly the documented message.
The side conditions state that none of the configuration checks listed
earlier in the contract (sourcemap, ESM runtime, PnP flag) fires
first. -/
theorem c4_missing_tsconfig (fs : List String) (inst : Option PackageInstallation)
    (props : BundlingProps) (h1 : props.preCompilation = true)
    (h2 : props.tsconfig = none)
    (h3 : findUp fs "tsconfig.json" (pathDirname props.entry) = none)
    (h4 : sourceMapGuilty props = false) (h5 : esmGuilty props = false)
    (h6 : yarnPnPGuilty props = false) :
    Bundling.bundle fs inst props = .error (.configuration
      "Cannot find a `tsconfig.json` but `preCompilation` is set to `true`, please specify it via `tsconfig`") := by
  have hg : tsconfigGuilty fs props = true := by
    simp [tsconfigGuilty, resolvedTsconfig, h1, h2, h3]
  simp [Bundling.bundle, Bundling.create, h4, h5, h6, hg]

/-- Claim C4, witness: the claim at the input of the test
`throws with pre compilation and not found tsconfig`, with an empty
file system. -/
theorem c4_witness :
    c4Props.preCompilation = true ∧ c4Props.tsconfig = none ∧
    findUp [] "tsconfig.json" (pathDirname c4Props.entry) = none ∧
    Bundling.bundle [] none c4Props = .error (.configuration
      "Cannot find a `tsconfig.json` but `preCompilation` is set to `true`, please specify it via `tsconfig`") :=
  ⟨rfl, rfl, by decide,
    c4_missing_tsconfig [] none c4Props rfl rfl (by decide) (by decide) (by decide) (by decide)⟩

/-! ## Claim C5 -/

/-- Claim C5: for every `BundlingOptions` whose output format is ESM
and whose target runtime predates ESM support, `Bundling.bundle`
throws a `ConfigurationError` whose message names the runtime,
regardless of all other flags (side condition: the sourcemap check,
listed first in the contract, does not fire). -/
theorem c5_esm_runtime (fs : List String) (inst : Option PackageInstallation)
    (props : BundlingProps) (h1 : props.format = some OutputFormat.esm)
    (h2 : props.runtime.supportsEsm = false) (h3 : sourceMapGuilty props = false) :
    Bundling.bundle fs inst props = .error (.configuration
      ("ECMAScript module output format is not supported by the "
        ++ props.runtime.name ++ " runtime")) := by
  have hg : esmGuilty props = true := by simp [esmGuilty, h1, h2]
  simp [Bundling.bundle, Bundling.create, h3, hg]

/-- Claim C5, witness: the claim at the input of the test
`throws with ESM and NODEJS_12_X`, with the exact documented message. -/
theorem c5_witness :
    c5Props.format = some OutputFormat.esm ∧ c5Props.runtime.supportsEsm = false ∧
    Bundling.bundle [] none c5Props = .error (.configuration
      "ECMAScript module output format is not supported by the nodejs12.x runtime") :=
  ⟨rfl, rfl, by
    have h := c5_esm_runtime [] none c5Props rfl rfl (by decide)
    rw [h]
    rfl⟩

/-! ## Claim C6 -/

/-- Claim C6: for every `BundlingOptions` with the `yarnPnP` flag set
while the package manager detected from the lock-file name is not yarn,
`Bundling.bundle` throws a `ConfigurationError` with the documented
message, before any execution attempt (side conditions: the sourcemap
and ESM checks, listed earlier in the contract, do not fire). -/
theorem c6_yarnpnp_nonyarn (fs : List String) (inst : Option PackageInstallation)
    (props : BundlingProps) (h1 : props.yarnPnP = true)
    (h2 : PackageManager.fromLockFile props.depsLockFilePath ≠ PackageManager.yarn)
    (h3 : sourceMapGuilty props = false) (h4 : esmGuilty props = false) :
    Bundling.bundle fs inst props = .error (.configuration
      "yarnPnP is only supported when using the yarn package manager") := by
  have hg : yarnPnPGuilty props = true := by simp [yarnPnPGuilty, h1, h2]
  simp [Bundling.bundle, Bundling.create, h3, h4, hg]

/-- Claim C6, witness: the claim at the input of the test
`throws with yarnPnP and npm` (lock file `package-lock.json`, which
selects npm). -/
theorem c6_witness :
    c6Props.yarnPnP = true ∧
    PackageManager.fromLockFile c6Props.depsLockFilePath = PackageManager.npm ∧
    Bundling.bundle [] none c6Props = .error (.configuration
      "yarnPnP is only supported when using the yarn package manager") :=
  ⟨rfl, by decide,
    c6_yarnpnp_nonyarn [] none c6Props rfl (by decide) (by decide) (by decide)⟩

/-! ## Claim C9 -/

/-- Claim C9: for every `SinglePageAppProps` where both `hostedZone`
and `zoneName` are absent, the `SinglePageApp` constructor throws the
documented error; the construction fails before producing the result
record, so no resource (bucket, distribution, certificate or DNS
record) is created. -/
theorem c9_zone_required (lookupSucceeds : Bool) (isUnresolved : String → Bool)
    (props : SinglePageAppProps) (h1 : props.hostedZone = none)
    (h2 : props.zoneName = none) :
    SinglePageApp.create lookupSucceeds isUnresolved props =
      .error "Either `hostedZone` or `zoneName` must be provided." := by
  simp [SinglePageApp.create, h1, h2]

/-- Claim C9, witness: the claim at props supplying only `indexDoc`. -/
theorem c9_witness :
    c9Props.hostedZone = none ∧ c9Props.zoneName = none ∧
    SinglePageApp.create true (fun _ => false) c9Props =
      .error "Either `hostedZone` or `zoneName` must be provided." :=
  ⟨rfl, rfl, c9_zone_required true (fun _ => false) c9Props rfl rfl⟩

/-! ## Claim C3 -/

/-- Claim C3: when the locally detected bundler tool reports a version
whose major version differs from the expected one, constructing the
`Bundling` engine raises no error; the mismatch is surfaced — as an
error whose message reads `Expected esbuild version 0.x but got
<version>` — only when local execution is attempted via `tryBundle`.
The side conditions state that the options pass the configuration
checks (which are independent of the probe result). -/
theorem c3_version_mismatch_lazy (fs : List String) (props : BundlingProps)
    (inst : PackageInstallation)
    (hv : (esbuildMajorVersion ++ ".").data.isPrefixOf inst.version.data = false)
    (h1 : sourceMapGuilty props = false) (h2 : esmGuilty props = false)
    (h3 : yarnPnPGuilty props = false) (h4 : tsconfigGuilty fs props = false) :
    (Bundling.create fs (some inst) props).isOk = true ∧
    (Bundling.create fs (some inst) props).map (fun b => b.tryBundle "/outdir") =
      .ok (.error (.toolVersionMismatch ("Expected esbuild version " ++ esbuildMajorVersion
        ++ ".x but got " ++ inst.version))) := by
  have hv' : ¬ esbuildMajorVersion.data ++ ['.'] <+: inst.version.data := by
    rw [← List.isPrefixOf_iff_prefix]
    have he : (esbuildMajorVersion ++ ".").data = esbuildMajorVersion.data ++ ['.'] := rfl
    rw [he] at hv
    simp [hv]
  constructor
  · simp [Bundling.create, h1, h2, h3, h4, Except.isOk, Except.toBool]
  · simp [Bundling.create, h1, h2, h3, h4, Except.map, Bundling.tryBundle, hv']

/-- Claim C3, witness: the claim at the input of the test
`Incorrect esbuild version` (detected version `3.4.5`). -/
theorem c3_witness :
    (esbuildMajorVersion ++ ".").data.isPrefixOf c3Inst.version.data = false ∧
    (Bundling.create [] (some c3Inst) testProps).isOk = true ∧
    (Bundling.create [] (some c3Inst) testProps).map (fun b => b.tryBundle "/outdir") =
      .ok (.error (.toolVersionMismatch "Expected esbuild version 0.x but got 3.4.5")) := by
  have h := c3_version_mismatch_lazy [] testProps c3Inst (by decide) (by decide) (by decide)
    (by decide) (by decide)
  refine ⟨by decide, h.1, ?_⟩
  rw [h.2]
  rfl

/-! ## Claim C8 -/

/-- Claim C8: for every bundle request that succeeds, supplying a
custom `assetHash` string yields the hash strategy CUSTOM with the
literal string passed through unchanged, and supplying none yields the
content-hash-of-output strategy; the two branches are exclusive and
exhaustive (an `Option` is either `some` or `none`). -/
theorem c8_asset_hash (fs : List String) (inst : Option PackageInstallation)
    (props : BundlingProps) (hok : (Bundling.bundle fs inst props).isOk = true) :
    (props.assetHash.isSome = true →
      requestHash (Bundling.bundle fs inst props) = some (AssetHashType.custom, props.assetHash)) ∧
    (props.assetHash = none →
      requestHash (Bundling.bundle fs inst props) = some (AssetHashType.output, none)) := by
  rcases hc : Bundling.create fs inst props with e | b
  · simp [Bundling.bundle, hc, Except.isOk, Except.toBool] at hok
  · constructor
    · intro h
      simp [requestHash, Bundling.bundle, hc, h]
    · intro h
      simp [requestHash, Bundling.bundle, hc, h]

/-- Claim C8, witness: the claim at the input of the test
`with custom hash` (custom hash string `custom`). -/
theorem c8_witness :
    (Bundling.bundle [] none c8Props).isOk = true ∧
    c8Props.assetHash = some "custom" ∧
    requestHash (Bundling.bundle [] none c8Props) =
      some (AssetHashType.custom, some "custom") := by
  have h := (c8_asset_hash [] none c8Props (by decide)).1 rfl
  refine ⟨by decide, rfl, ?_⟩
  rw [h]
  rfl

/-! ## Claim C10 -/

/-- Claim C10: for every `SinglePageAppProps` that supplies
`acmCertificateArn` (and a hosted zone or zone name, which the
constructor validates first), if the region parsed from the ARN is a
resolved (non-token) value different from `us-east-1` the constructor
throws an error naming the offending region; otherwise the provided
certificate is imported by ARN and no `DnsValidatedCertificate` is
created. -/
theorem c10_certificate_region (lookupSucceeds : Bool) (isUnresolved : String → Bool)
    (props : SinglePageAppProps) (arn : String)
    (h1 : props.acmCertificateArn = some arn)
    (h2 : (props.hostedZone.isSome || props.zoneName.isSome) = true) :
    ((isUnresolved (arnRegion arn) = false ∧ arnRegion arn ≠ "us-east-1") →
      SinglePageApp.create lookupSucceeds isUnresolved props =
        .error ("The certificate must be in the us-east-1 region and the certificate you provided is in "
          ++ arnRegion arn ++ ".")) ∧
    ((isUnresolved (arnRegion arn) = true ∨ arnRegion arn = "us-east-1") →
      spaCertificate (SinglePageApp.create lookupSucceeds isUnresolved props) =
        some (.imported arn)) := by
  constructor
  · intro hbad
    rcases hz : props.hostedZone with _ | z
    · rcases hn : props.zoneName with _ | zn
      · rw [hz, hn] at h2
        simp at h2
      · simp [SinglePageApp.create, hz, hn, h1, hbad]
    · simp [SinglePageApp.create, hz, h1, hbad]
  · intro hok
    have hcond : ¬(isUnresolved (arnRegion arn) = false ∧ arnRegion arn ≠ "us-east-1") := by
      rcases hok with h | h
      · rintro ⟨ha, _⟩
        rw [h] at ha
        cases ha
      · rintro ⟨_, hb⟩
        exact hb h
    rcases hz : props.hostedZone with _ | z
    · rcases hn : props.zoneName with _ | zn
      · rw [hz, hn] at h2
        simp at h2
      · simp [SinglePageApp.create, spaCertificate, hz, hn, h1, hcond]
    · simp [SinglePageApp.create, spaCertificate, hz, h1, hcond]

/-- Claim C10, witness: the claim at props importing a certificate in
`us-west-2`: the constructor throws the error naming that region. -/
theorem c10_witness :
    c10Props.acmCertificateArn = some "arn:aws:acm:us-west-2:123:certificate/abc" ∧
    arnRegion "arn:aws:acm:us-west-2:123:certificate/abc" = "us-west-2" ∧
    SinglePageApp.create true (fun _ => false) c10Props =
      .error "The certificate must be in the us-east-1 region and the certificate you provided is in us-west-2." := by
  have h := (c10_certificate_region true (fun _ => false) c10Props
    "arn:aws:acm:us-west-2:123:certificate/abc" rfl rfl).1 ⟨rfl, by decide⟩
  refine ⟨rfl, by decide, ?_⟩
  rw [h]
  rfl

/-! ## Claim C7 -/

/-- Claim C7: for every `BundlingOptions` with command hooks, the final
shell command string is the success-gated concatenation of the hook
fragments in the fixed order pre-install, pre-bundle, core bundler
invocation, post-bundle, each hook invoked with the input/output
directory placeholders; a hook returning an empty list contributes no
fragment (here the pre-install hook fragments and the pre-bundle hook
fragments of `h` appear in order around the core `esbuildCommand`, and
the empty install/pre-compilation fragments of these options vanish
from the chain, which filters empty fragments before joining). -/
theorem c7_command_hooks (fs : List String) (inst : Option PackageInstallation)
    (props : BundlingProps) (h : CommandHooks)
    (hh : props.commandHooks = some h) (hnm : props.nodeModules = none)
    (hpc : props.preCompilation = false) (h1 : sourceMapGuilty props = false)
    (h2 : esmGuilty props = false) (h3 : yarnPnPGuilty props = false) :
    requestCommand (Bundling.bundle fs inst props) = some ["bash", "-c",
      chain (h.beforeInstall "/asset-input" "/asset-output"
        ++ h.beforeBundling "/asset-input" "/asset-output"
        ++ [esbuildCommand props ("/asset-input" ++ "/" ++ relativePath props.projectRoot props.entry)
              "/asset-output"]
        ++ h.afterBundling "/asset-input" "/asset-output")] := by
  have h4 : tsconfigGuilty fs props = false := by simp [tsconfigGuilty, hpc]
  simp [requestCommand, Bundling.bundle, Bundling.create, h1, h2, h3, h4,
    assembleCommand, hh, depsCommand, hnm, tscCommand, hpc, chain, List.filter_append]

/-- Claim C7, witness: the claim at the input of the test
`with command hooks` (empty pre-install hook, two pre-bundle fragments,
one post-bundle fragment). -/
theorem c7_witness :
    c7Props.commandHooks = some c7Hooks ∧ c7Props.nodeModules = none ∧
    requestCommand (Bundling.bundle [] none c7Props) = some ["bash", "-c",
      chain (c7Hooks.beforeInstall "/asset-input" "/asset-output"
        ++ c7Hooks.beforeBundling "/asset-input" "/asset-output"
        ++ [esbuildCommand c7Props
              ("/asset-input" ++ "/" ++ relativePath c7Props.projectRoot c7Props.entry)
              "/asset-output"]
        ++ c7Hooks.afterBundling "/asset-input" "/asset-output")] :=
  ⟨rfl, rfl,
    c7_command_hooks [] none c7Props c7Hooks rfl rfl rfl (by decide) (by decide) (by decide)⟩

/-! ## Claim C2 -/

/-- Claim C2: for every supported lock-file name, package-manager
detection selects the variant whose install-command template matches
exactly: a `depsLockFilePath` whose basename is `yarn.lock` yields an
assembled command containing `yarn install --no-immutable`, and one
whose basename is `pnpm-lock.yaml` yields a command containing
`pnpm install`; in both cases the directory handed to the
build-artifact collaborator is the parent directory of the lock file.
(The install step is present when extra modules are named, as in the
tests `Detects yarn.lock` and `Detects pnpm-lock.yaml`; the side
conditions state that the configuration checks pass.) -/
theorem c2_lockfile_detection :
    (∀ (fs : List String) (inst : Option PackageInstallation) (props : BundlingProps)
        (mods : List String),
        pathBasename props.depsLockFilePath = "yarn.lock" →
        props.nodeModules = some mods →
        props.preCompilation = false →
        sourceMapGuilty props = false → esmGuilty props = false →
        requestDirectory (Bundling.bundle fs inst props) =
          some (pathDirname props.depsLockFilePath) ∧
        ("yarn install --no-immutable").data <:+:
          (requestCommandText (Bundling.bundle fs inst props)).data) ∧
    (∀ (fs : List String) (inst : Option PackageInstallation) (props : BundlingProps)
        (mods : List String),
        pathBasename props.depsLockFilePath = "pnpm-lock.yaml" →
        props.nodeModules = some mods →
        props.yarnPnP = false →
        props.preCompilation = false →
        sourceMapGuilty props = false → esmGuilty props = false →
        requestDirectory (Bundling.bundle fs inst props) =
          some (pathDirname props.depsLockFilePath) ∧
        ("pnpm install").data <:+:
          (requestCommandText (Bundling.bundle fs inst props)).data) := by
  constructor
  · intro fs inst props mods hbase hnm hpc hsg hesm
    have hpm : PackageManager.fromLockFile props.depsLockFilePath = PackageManager.yarn := by
      simp [PackageManager.fromLockFile, hbase, PackageManager.pnpm, PackageManager.yarn]
    have hpnp : yarnPnPGuilty props = false := by simp [yarnPnPGuilty, hpm]
    have hts : tsconfigGuilty fs props = false := by simp [tsconfigGuilty, hpc]
    refine ⟨?_, ?_⟩
    · simp [requestDirectory, Bundling.bundle, Bundling.create, hsg, hesm, hpnp, hts]
    · have hct : requestCommandText (Bundling.bundle fs inst props) =
          assembleCommand fs props PackageManager.yarn "/asset-input" "/asset-output" := by
        simp [requestCommandText, Bundling.bundle, Bundling.create, hsg, hesm, hpnp, hts, hpm]
      rw [hct]
      have hj : joinSep " " (PackageManager.yarn).installCommand = "yarn install --no-immutable" := by
        decide
      have t1 : ("yarn install --no-immutable").data <:+:
          (depsCommand props PackageManager.yarn "/asset-input" "/asset-output").data := by
        simp only [depsCommand, hnm]
        refine @chain_infix_of_mem "yarn install --no-immutable" _ ?_ (by decide)
        rw [← hj]
        simp
      have t2 : (depsCommand props PackageManager.yarn "/asset-input" "/asset-output").data <:+:
          (assembleCommand fs props PackageManager.yarn "/asset-input" "/asset-output").data := by
        simp only [assembleCommand]
        refine chain_infix_of_mem ?_ (ne_empty_of_infix_data t1 (by decide))
        simp
      exact t1.trans t2
  · intro fs inst props mods hbase hnm hpnpflag hpc hsg hesm
    have hpm : PackageManager.fromLockFile props.depsLockFilePath = PackageManager.pnpm := by
      simp [PackageManager.fromLockFile, hbase, PackageManager.pnpm]
    have hpnp : yarnPnPGuilty props = false := by simp [yarnPnPGuilty, hpnpflag]
    have hts : tsconfigGuilty fs props = false := by simp [tsconfigGuilty, hpc]
    refine ⟨?_, ?_⟩
    · simp [requestDirectory, Bundling.bundle, Bundling.create, hsg, hesm, hpnp, hts]
    · have hct : requestCommandText (Bundling.bundle fs inst props) =
          assembleCommand fs props PackageManager.pnpm "/asset-input" "/asset-output" := by
        simp [requestCommandText, Bundling.bundle, Bundling.create, hsg, hesm, hpnp, hts, hpm]
      rw [hct]
      have hj : joinSep " " (PackageManager.pnpm).installCommand = "pnpm install" := by
        decide
      have t1 : ("pnpm install").data <:+:
          (depsCommand props PackageManager.pnpm "/asset-input" "/asset-output").data := by
        simp only [depsCommand, hnm]
        refine @chain_infix_of_mem "pnpm install" _ ?_ (by decide)
        rw [← hj]
        simp
      have t2 : (depsCommand props PackageManager.pnpm "/asset-input" "/asset-output").data <:+:
          (assembleCommand fs props PackageManager.pnpm "/asset-input" "/asset-output").data := by
        simp only [assembleCommand]
        refine chain_infix_of_mem ?_ (ne_empty_of_infix_data t1 (by decide))
        simp
      exact t1.trans t2

/-- Claim C2, witness: both halves of the claim at the inputs of the
tests `Detects yarn.lock` and `Detects pnpm-lock.yaml`. -/
theorem c2_witness :
    (pathBasename c2YarnProps.depsLockFilePath = "yarn.lock" ∧
     requestDirectory (Bundling.bundle [] none c2YarnProps) = some "/project" ∧
     ("yarn install --no-immutable").data <:+:
       (requestCommandText (Bundling.bundle [] none c2YarnProps)).data) ∧
    (pathBasename c2PnpmProps.depsLockFilePath = "pnpm-lock.yaml" ∧
     requestDirectory (Bundling.bundle [] none c2PnpmProps) = some "/project" ∧
     ("pnpm install").data <:+:
       (requestCommandText (Bundling.bundle [] none c2PnpmProps)).data) := by
  have hy := c2_lockfile_detection.1 [] none c2YarnProps ["delay"] (by decide) rfl rfl
    (by decide) (by decide)
  have hp := c2_lockfile_detection.2 [] none c2PnpmProps ["delay"] (by decide) rfl rfl rfl
    (by decide) (by decide)
  refine ⟨⟨by decide, ?_, hy.2⟩, ⟨by decide, ?_, hp.2⟩⟩
  · rw [hy.1]
    rfl
  · rw [hp.1]
    rfl

end KikodaConstructs
